import Mathlib

set_option autoImplicit false

/-!
Shallow embedding of the session-scoped browser-automation core of the
delivery-expense repository (`src/backend/swiggy-scraper.js` and the
relevant route handlers of `src/backend/server.js`).

Modelling conventions:
* The global `sessions` JavaScript `Map` becomes an association list
  `Store` with JS `Map` semantics (`get` finds the entry, `set` replaces
  in place or appends, `delete` removes the entry).
* Browser/page handles become natural-number handles allocated from a
  counter in the state; `browser.close()` records the handle in
  `closedBrowsers`.
* Every external effect the control flow depends on (selector lookups,
  page text, navigation success, the clock, the host timezone) is an
  explicit environment parameter.
* JS numbers produced by `parseFloat` on the matched digit strings are
  modelled exactly as rationals.
-/

namespace DeliveryExpense

/-- One entry of the `sessions` map: the per-session record stored by
`initSwiggyLogin` (`{ browser, context, page, mobileNumber, debugLog }`);
the browser/context/page handles are modelled by the two numeric handles
`browser` and `page`. -/
structure Session where
  browser : Nat
  page : Nat
  mobileNumber : String
  debugLog : List String
  deriving Repr, DecidableEq

/-- The `sessions` JavaScript `Map`, as an insertion-ordered association
list. -/
abbrev Store := List (String × Session)

/-- `sessions.get(k)`. -/
def storeGet (st : Store) (k : String) : Option Session :=
  match st with
  | [] => none
  | (k', s) :: rest => if k' = k then some s else storeGet rest k

/-- `sessions.set(k, s)`: replaces the value in place when the key is
present, appends otherwise (JS `Map` semantics). -/
def storeSet (st : Store) (k : String) (s : Session) : Store :=
  match st with
  | [] => [(k, s)]
  | (k', s') :: rest => if k' = k then (k, s) :: rest else (k', s') :: storeSet rest k s

/-- `sessions.delete(k)`. -/
def storeDelete (st : Store) (k : String) : Store :=
  match st with
  | [] => []
  | (k', s') :: rest => if k' = k then storeDelete rest k else (k', s') :: storeDelete rest k

/-- Process state of the scraper module: the session map, the set of
browser handles that have been closed, and the allocation counter for
fresh handles. -/
structure ScraperState where
  sessions : Store
  closedBrowsers : List Nat
  nextHandle : Nat
  deriving Repr, DecidableEq

/-- `DEBUG_LOG_LIMIT` (swiggy-scraper.js line 5). -/
def DEBUG_LOG_LIMIT : Nat := 50

/-- The log mutation performed by `addDebug`: `push` the entry, then
`shift` when the length exceeds `DEBUG_LOG_LIMIT`. -/
def pushEntry (log : List String) (entry : String) : List String :=
  if DEBUG_LOG_LIMIT < (log ++ [entry]).length then (log ++ [entry]).tail
  else log ++ [entry]

/-- `addDebug(sessionId, message)` (lines 7-16): no-op when the session is
absent; otherwise appends the timestamp-prefixed entry to that session's
log with FIFO eviction beyond 50 entries.  The clock is the explicit
parameter `now`. -/
def addDebug (now : String) (st : ScraperState) (sessionId message : String) : ScraperState :=
  match storeGet st.sessions sessionId with
  | none => st
  | some s =>
      let entry := "[" ++ now ++ "] " ++ message
      { st with
        sessions := storeSet st.sessions sessionId { s with debugLog := pushEntry s.debugLog entry } }

/-- `getDebugLog(sessionId)` (lines 18-21). -/
def getDebugLog (st : ScraperState) (sessionId : String) : List String :=
  match storeGet st.sessions sessionId with
  | none => []
  | some s => s.debugLog

/-- A sequence of appends to one diagnostic log. -/
def appendAll (log : List String) (entries : List String) : List String :=
  entries.foldl pushEntry log

theorem storeGet_storeSet_self (st : Store) (k : String) (s : Session) :
    storeGet (storeSet st k s) k = some s := by
  induction st with
  | nil => simp [storeGet, storeSet]
  | cons hd tl ih =>
      obtain ⟨k', s'⟩ := hd
      by_cases h : k' = k <;> simp [storeGet, storeSet, h, ih]

theorem storeGet_storeSet_ne (st : Store) (k t : String) (s : Session) (h : t ≠ k) :
    storeGet (storeSet st k s) t = storeGet st t := by
  have hkt : ¬ k = t := fun hh => h hh.symm
  induction st with
  | nil => simp [storeGet, storeSet, hkt]
  | cons hd tl ih =>
      obtain ⟨k', s'⟩ := hd
      by_cases hk : k' = k
      · have hk't : ¬ k' = t := by rw [hk]; exact hkt
        simp [storeGet, storeSet, hk, hkt, hk't]
      · simp [storeGet, storeSet, hk, ih]

theorem storeGet_storeDelete_self (st : Store) (k : String) :
    storeGet (storeDelete st k) k = none := by
  induction st with
  | nil => simp [storeGet, storeDelete]
  | cons hd tl ih =>
      obtain ⟨k', s'⟩ := hd
      by_cases h : k' = k <;> simp [storeGet, storeDelete, h, ih]

theorem storeGet_storeDelete_ne (st : Store) (k t : String) (h : t ≠ k) :
    storeGet (storeDelete st k) t = storeGet st t := by
  induction st with
  | nil => simp [storeDelete]
  | cons hd tl ih =>
      obtain ⟨k', s'⟩ := hd
      by_cases hk : k' = k
      · have hkt : ¬ k = t := fun hh => h hh.symm
        simp [storeGet, storeDelete, hk, hkt, ih]
      · simp [storeGet, storeDelete, hk, ih]

theorem addDebug_closedBrowsers (now : String) (st : ScraperState) (k m : String) :
    (addDebug now st k m).closedBrowsers = st.closedBrowsers := by
  unfold addDebug
  cases storeGet st.sessions k <;> rfl

theorem addDebug_nextHandle (now : String) (st : ScraperState) (k m : String) :
    (addDebug now st k m).nextHandle = st.nextHandle := by
  unfold addDebug
  cases storeGet st.sessions k <;> rfl

theorem storeGet_addDebug_ne (now : String) (st : ScraperState) (k m t : String) (h : t ≠ k) :
    storeGet (addDebug now st k m).sessions t = storeGet st.sessions t := by
  unfold addDebug
  cases storeGet st.sessions k with
  | none => rfl
  | some s => simpa using storeGet_storeSet_ne st.sessions k t _ h

theorem storeGet_addDebug_isSome (now : String) (st : ScraperState) (k m t : String) :
    (storeGet (addDebug now st k m).sessions t).isSome = (storeGet st.sessions t).isSome := by
  by_cases h : t = k
  · subst h
    cases hg : storeGet st.sessions t with
    | none => simp [addDebug, hg]
    | some s => simp [addDebug, hg, storeGet_storeSet_self]
  · rw [storeGet_addDebug_ne now st k m t h]

theorem storeGet_addDebug_self (now : String) (st : ScraperState) (k m : String)
    (s : Session) (h : storeGet st.sessions k = some s) :
    storeGet (addDebug now st k m).sessions k =
      some { s with debugLog := pushEntry s.debugLog ("[" ++ now ++ "] " ++ m) } := by
  unfold addDebug
  rw [h]
  simpa using storeGet_storeSet_self st.sessions k _

theorem pushEntry_length_le (log : List String) (e : String)
    (h : log.length ≤ 50) : (pushEntry log e).length ≤ 50 := by
  unfold pushEntry DEBUG_LOG_LIMIT
  split
  · simp only [List.length_tail, List.length_append, List.length_cons, List.length_nil]
    omega
  · next hlen =>
      simp only [List.length_append, List.length_cons, List.length_nil] at hlen ⊢
      omega

theorem pushEntry_eq_drop (log : List String) (e : String) (h : log.length ≤ 50) :
    pushEntry log e = (log ++ [e]).drop (log.length + 1 - 50) := by
  unfold pushEntry DEBUG_LOG_LIMIT
  split
  · next hlen =>
      simp only [List.length_append, List.length_cons, List.length_nil] at hlen
      have h1 : log.length + 1 - 50 = 1 := by omega
      rw [h1, ← List.drop_one]
  · next hlen =>
      simp only [List.length_append, List.length_cons, List.length_nil] at hlen
      have h0 : log.length + 1 - 50 = 0 := by omega
      rw [h0, List.drop_zero]

theorem appendAll_eq_drop (es : List String) (log : List String) (h : log.length ≤ 50) :
    appendAll log es = (log ++ es).drop (log.length + es.length - 50) := by
  induction es generalizing log with
  | nil =>
      have h0 : log.length + ([] : List String).length - 50 = 0 := by
        simp only [List.length_nil]
        omega
      rw [h0]
      simp [appendAll]
  | cons e es ih =>
      have hle : (pushEntry log e).length ≤ 50 := pushEntry_length_le log e h
      have step : appendAll log (e :: es) = appendAll (pushEntry log e) es := rfl
      rw [step, ih _ hle, pushEntry_eq_drop log e h]
      have hk : log.length + 1 - 50 ≤ (log ++ [e]).length := by
        simp only [List.length_append, List.length_cons, List.length_nil]
        omega
      rw [← List.drop_append_of_le_length hk]
      rw [List.drop_drop]
      have hassoc : (log ++ [e]) ++ es = log ++ e :: es := by simp
      rw [hassoc]
      congr 1
      simp only [List.length_drop, List.length_append, List.length_cons, List.length_nil]
      omega

/-- C2: the diagnostic log is a 50-entry FIFO ring.  (1) each `addDebug`
on a live session performs exactly the `pushEntry` log mutation and
nothing else to that entry; (2) a log within the 50-entry bound stays
within it under any sequence of appends; (3) after more than 50 appends
starting from the empty log, the length is exactly 50 and the content is
precisely the 50 most-recently appended entries in append order. -/
theorem debugLog_ring :
    (∀ now st sid msg s, storeGet st.sessions sid = some s →
        storeGet (addDebug now st sid msg).sessions sid =
          some { s with debugLog := pushEntry s.debugLog ("[" ++ now ++ "] " ++ msg) }) ∧
    (∀ (log es : List String), log.length ≤ 50 → (appendAll log es).length ≤ 50) ∧
    (∀ es : List String, 50 < es.length →
        (appendAll [] es).length = 50 ∧ appendAll [] es = es.drop (es.length - 50)) := by
  refine ⟨fun now st sid msg s h => storeGet_addDebug_self now st sid msg s h, ?_, ?_⟩
  · intro log es h
    rw [appendAll_eq_drop es log h]
    simp only [List.length_drop, List.length_append]
    omega
  · intro es h
    have h0 : ([] : List String).length ≤ 50 := by simp
    constructor
    · rw [appendAll_eq_drop es [] h0]
      simp only [List.length_drop, List.nil_append, List.length_nil, Nat.zero_add]
      omega
    · rw [appendAll_eq_drop es [] h0]
      simp only [List.nil_append, List.length_nil, Nat.zero_add]

/-- Witness for `debugLog_ring` at a concrete 51-entry append sequence. -/
theorem debugLog_ring_witness :
    (appendAll [] (List.replicate 51 "x")).length = 50 ∧
      appendAll [] (List.replicate 51 "x") =
        (List.replicate 51 "x").drop (51 - 50) := by
  have h := debugLog_ring.2.2 (List.replicate 51 "x") (by simp)
  simpa using h

/-- `cleanupSession(sessionId)` (swiggy-scraper.js lines 358-364): when the
session exists, `browser.close()` (errors swallowed by `.catch`) and
`sessions.delete`; otherwise nothing. -/
def cleanupSession (st : ScraperState) (sessionId : String) : ScraperState :=
  match storeGet st.sessions sessionId with
  | none => st
  | some s =>
      { st with
        sessions := storeDelete st.sessions sessionId,
        closedBrowsers := s.browser :: st.closedBrowsers }

/-- Response shape of the `/api/swiggy/cancel-session` route. -/
structure CancelResponse where
  success : Bool
  message : String
  deriving Repr, DecidableEq

/-- The `/api/swiggy/cancel-session` handler body (server.js lines
130-144) for a request carrying a session id: awaits `cleanupSession`
and responds `{ success: true, message: 'Session cleaned up' }`.  The
handler's catch branch is unreachable because `cleanupSession` swallows
release errors, so the model is total. -/
def cancelSessionRoute (st : ScraperState) (sessionId : String) :
    CancelResponse × ScraperState :=
  ({ success := true, message := "Session cleaned up" }, cleanupSession st sessionId)

theorem cleanupSession_absent (st : ScraperState) (sid : String)
    (h : storeGet st.sessions sid = none) : cleanupSession st sid = st := by
  unfold cleanupSession
  rw [h]

theorem storeGet_cleanupSession_self (st : ScraperState) (sid : String) :
    storeGet (cleanupSession st sid).sessions sid = none := by
  unfold cleanupSession
  cases h : storeGet st.sessions sid with
  | none => exact h
  | some s => simpa using storeGet_storeDelete_self st.sessions sid

/-- C8: cancellation is idempotent and never errors.  The route always
responds success; cancelling a live session closes its browser and
removes it from the Store; cancelling an absent (never-created or
already-completed) id changes nothing; a second cancel of the same id is
a no-op. -/
theorem cancel_idempotent :
    (∀ st sid, (cancelSessionRoute st sid).1 =
        { success := true, message := "Session cleaned up" }) ∧
    (∀ st sid s, storeGet st.sessions sid = some s →
        storeGet (cleanupSession st sid).sessions sid = none ∧
          s.browser ∈ (cleanupSession st sid).closedBrowsers) ∧
    (∀ st sid, storeGet st.sessions sid = none → cleanupSession st sid = st) ∧
    (∀ st sid, cleanupSession (cleanupSession st sid) sid = cleanupSession st sid) := by
  refine ⟨fun st sid => rfl, ?_, cleanupSession_absent, ?_⟩
  · intro st sid s h
    refine ⟨storeGet_cleanupSession_self st sid, ?_⟩
    unfold cleanupSession
    rw [h]
    simp
  · intro st sid
    exact cleanupSession_absent _ sid (storeGet_cleanupSession_self st sid)

/-- Witness for `cancel_idempotent` on a concrete one-session store. -/
theorem cancel_idempotent_witness :
    storeGet (cleanupSession
        ⟨[("s1", ⟨0, 1, "9876543210", []⟩)], [], 2⟩ "s1").sessions "s1" = none ∧
      (0 : Nat) ∈ (cleanupSession
        ⟨[("s1", ⟨0, 1, "9876543210", []⟩)], [], 2⟩ "s1").closedBrowsers ∧
      cleanupSession (⟨[], [], 0⟩ : ScraperState) "s2" = ⟨[], [], 0⟩ := by
  refine ⟨?_, ?_, ?_⟩
  · exact (cancel_idempotent.2.1 _ "s1" ⟨0, 1, "9876543210", []⟩ (by decide)).1
  · exact (cancel_idempotent.2.1 _ "s1" ⟨0, 1, "9876543210", []⟩ (by decide)).2
  · exact cancel_idempotent.2.2.1 _ "s2" (by decide)

/-- Whether `pat` is a prefix of `cs` (character lists). -/
def hasPrefixChars : List Char → List Char → Bool
  | [], _ => true
  | _ :: _, [] => false
  | p :: ps, c :: cs => p = c && hasPrefixChars ps cs

/-- Whether `pat` occurs contiguously inside `cs`. -/
def hasInfixChars (pat : List Char) : List Char → Bool
  | [] => pat.isEmpty
  | c :: cs => hasPrefixChars pat (c :: cs) || hasInfixChars pat cs

/-- JS `hay.includes(needle)`. -/
def jsIncludes (hay needle : String) : Bool :=
  hasInfixChars needle.data hay.data

/-- Environment of one `submitOTP` call: the clock, whether the ordered
selector fallbacks locate the OTP input and the verify button, and the
rendered page text consulted by the two `page.evaluate` calls. -/
structure OtpEnv where
  now : String
  otpInputFound : Bool
  verifyButtonFound : Bool
  bodyText : String
  deriving Repr, DecidableEq

/-- Result shape of `submitOTP`. -/
structure OtpResult where
  success : Bool
  message : String
  error : Option String
  debugLog : List String
  deriving Repr, DecidableEq

/-- `submitOTP(sessionId, otp)` (swiggy-scraper.js lines 156-232).  The
missing-input throw at line 177 is caught by the surrounding `try` at
line 224 and converted to a failure result; no branch closes the browser
or touches the session map beyond `addDebug`. -/
def submitOTP (env : OtpEnv) (st : ScraperState) (sessionId otp : String) :
    OtpResult × ScraperState :=
  match storeGet st.sessions sessionId with
  | none =>
      ({ success := false, message := "Session not found or expired",
         error := none, debugLog := [] }, st)
  | some _ =>
      let st1 := addDebug env.now st sessionId ("Submitting OTP for session " ++ sessionId)
      if env.otpInputFound = false then
        let st2 := addDebug env.now st1 sessionId "Could not locate OTP input on page"
        ({ success := false,
           message := "OTP verification failed: Could not find OTP input field",
           error := some "Could not find OTP input field",
           debugLog := getDebugLog st2 sessionId }, st2)
      else
        let st2 := addDebug env.now st1 sessionId "Filling OTP into input"
        let st3 :=
          if env.verifyButtonFound then
            addDebug env.now st2 sessionId "Clicking verify button for OTP"
          else
            addDebug env.now st2 sessionId "Verify button not found after entering OTP"
        let loginSuccess : Bool :=
          !(jsIncludes env.bodyText "Invalid OTP") && !(jsIncludes env.bodyText "incorrect")
        let st4 :=
          if loginSuccess = false then
            addDebug env.now st3 sessionId
              ("OTP validation failed. Page preview: " ++ String.mk (env.bodyText.data.take 500))
          else st3
        let st5 := addDebug env.now st4 sessionId
          ("OTP verification result: " ++ (if loginSuccess then "success" else "failure"))
        if loginSuccess = false then
          ({ success := false, message := "Invalid OTP. Please try again.",
             error := none, debugLog := getDebugLog st5 sessionId }, st5)
        else
          ({ success := true, message := "Login successful! You can now scrape orders.",
             error := none, debugLog := getDebugLog st5 sessionId }, st5)

/-- `st'` differs from `st` at most in the diagnostic log of session
`sid`: no browser was closed, no handle allocated, no session added or
removed, and every other session's record is untouched. -/
def OnlyLogChanged (sid : String) (st st' : ScraperState) : Prop :=
  st'.closedBrowsers = st.closedBrowsers ∧
  st'.nextHandle = st.nextHandle ∧
  (∀ t, (storeGet st'.sessions t).isSome = (storeGet st.sessions t).isSome) ∧
  (∀ t, t ≠ sid → storeGet st'.sessions t = storeGet st.sessions t)

theorem onlyLogChanged_refl (sid : String) (st : ScraperState) :
    OnlyLogChanged sid st st :=
  ⟨rfl, rfl, fun _ => rfl, fun _ _ => rfl⟩

theorem onlyLogChanged_addDebug (sid now msg : String) (st : ScraperState) :
    OnlyLogChanged sid st (addDebug now st sid msg) :=
  ⟨addDebug_closedBrowsers now st sid msg, addDebug_nextHandle now st sid msg,
   fun t => storeGet_addDebug_isSome now st sid msg t,
   fun t ht => storeGet_addDebug_ne now st sid msg t ht⟩

theorem onlyLogChanged_trans {sid : String} {a b c : ScraperState}
    (h1 : OnlyLogChanged sid a b) (h2 : OnlyLogChanged sid b c) :
    OnlyLogChanged sid a c :=
  ⟨h2.1.trans h1.1, h2.2.1.trans h1.2.1,
   fun t => (h2.2.2.1 t).trans (h1.2.2.1 t),
   fun t ht => ((h2.2.2.2 t ht).trans (h1.2.2.2 t ht))⟩

theorem onlyLogChanged_step (sid now msg : String) {a : ScraperState} (b : ScraperState)
    (h : OnlyLogChanged sid a b) :
    OnlyLogChanged sid a (addDebug now b sid msg) :=
  onlyLogChanged_trans h (onlyLogChanged_addDebug sid now msg b)

theorem onlyLogChanged_ite (sid : String) {st : ScraperState} (c : Prop) [Decidable c]
    {a b : ScraperState} (ha : OnlyLogChanged sid st a) (hb : OnlyLogChanged sid st b) :
    OnlyLogChanged sid st (if c then a else b) := by
  split
  · exact ha
  · exact hb

theorem submitOTP_onlyLog (env : OtpEnv) (st : ScraperState) (sid otp : String) :
    OnlyLogChanged sid st (submitOTP env st sid otp).2 := by
  unfold submitOTP
  cases hget : storeGet st.sessions sid with
  | none => exact onlyLogChanged_refl sid st
  | some s =>
      simp only [apply_ite Prod.snd, ite_self]
      apply onlyLogChanged_ite
      · exact onlyLogChanged_step sid env.now _ _
          (onlyLogChanged_step sid env.now _ _ (onlyLogChanged_refl sid st))
      · apply onlyLogChanged_step
        apply onlyLogChanged_ite
        · apply onlyLogChanged_step
          apply onlyLogChanged_ite
          · exact onlyLogChanged_step sid env.now _ _
              (onlyLogChanged_step sid env.now _ _
                (onlyLogChanged_step sid env.now _ _ (onlyLogChanged_refl sid st)))
          · exact onlyLogChanged_step sid env.now _ _
              (onlyLogChanged_step sid env.now _ _
                (onlyLogChanged_step sid env.now _ _ (onlyLogChanged_refl sid st)))
        · apply onlyLogChanged_ite
          · exact onlyLogChanged_step sid env.now _ _
              (onlyLogChanged_step sid env.now _ _
                (onlyLogChanged_step sid env.now _ _ (onlyLogChanged_refl sid st)))
          · exact onlyLogChanged_step sid env.now _ _
              (onlyLogChanged_step sid env.now _ _
                (onlyLogChanged_step sid env.now _ _ (onlyLogChanged_refl sid st)))

/-- C5: `submitOTP` never releases a browser and never removes a session
from the Store.  An unresolvable id returns the "Session not found or
expired" failure with no side effects at all; a missing OTP input
returns the caught-error failure with the session still present; a page
showing an "Invalid OTP"/"incorrect" marker returns the
"Invalid OTP. Please try again." failure with the session still present. -/
theorem submitOTP_spec (env : OtpEnv) (st : ScraperState) (sid otp : String) :
    (submitOTP env st sid otp).2.closedBrowsers = st.closedBrowsers ∧
    (∀ t, (storeGet (submitOTP env st sid otp).2.sessions t).isSome
        = (storeGet st.sessions t).isSome) ∧
    (storeGet st.sessions sid = none →
      (submitOTP env st sid otp).1 =
        { success := false, message := "Session not found or expired",
          error := none, debugLog := [] } ∧
      (submitOTP env st sid otp).2 = st) ∧
    ((storeGet st.sessions sid).isSome = true → env.otpInputFound = false →
      (submitOTP env st sid otp).1.success = false ∧
      (submitOTP env st sid otp).1.message =
        "OTP verification failed: Could not find OTP input field" ∧
      (storeGet (submitOTP env st sid otp).2.sessions sid).isSome = true) ∧
    ((storeGet st.sessions sid).isSome = true → env.otpInputFound = true →
      (jsIncludes env.bodyText "Invalid OTP" = true ∨
        jsIncludes env.bodyText "incorrect" = true) →
      (submitOTP env st sid otp).1.success = false ∧
      (submitOTP env st sid otp).1.message = "Invalid OTP. Please try again." ∧
      (storeGet (submitOTP env st sid otp).2.sessions sid).isSome = true) := by
  refine ⟨(submitOTP_onlyLog env st sid otp).1,
    (submitOTP_onlyLog env st sid otp).2.2.1, ?_, ?_, ?_⟩
  · intro h
    constructor <;> simp [submitOTP, h]
  · intro hsome hin
    obtain ⟨s, hs⟩ := Option.isSome_iff_exists.mp hsome
    refine ⟨?_, ?_, ?_⟩
    · simp [submitOTP, hs, hin]
    · simp [submitOTP, hs, hin]
    · rw [(submitOTP_onlyLog env st sid otp).2.2.1 sid]
      exact hsome
  · intro hsome hin hmark
    obtain ⟨s, hs⟩ := Option.isSome_iff_exists.mp hsome
    have hls : (!(jsIncludes env.bodyText "Invalid OTP") &&
        !(jsIncludes env.bodyText "incorrect")) = false := by
      rcases hmark with h1 | h1 <;> simp [h1]
    refine ⟨?_, ?_, ?_⟩
    · simp [submitOTP, hs, hin, hls]
    · simp [submitOTP, hs, hin, hls]
    · rw [(submitOTP_onlyLog env st sid otp).2.2.1 sid]
      exact hsome

/-- Witness for `submitOTP_spec`: a live session, page showing
"Invalid OTP", OTP input present. -/
theorem submitOTP_spec_witness :
    (submitOTP ⟨"t0", true, true, "Invalid OTP entered"⟩
        ⟨[("s1", ⟨0, 1, "9876543210", []⟩)], [], 2⟩ "s1" "000000").1.success = false ∧
    (submitOTP ⟨"t0", true, true, "Invalid OTP entered"⟩
        ⟨[("s1", ⟨0, 1, "9876543210", []⟩)], [], 2⟩ "s1" "000000").1.message =
      "Invalid OTP. Please try again." ∧
    (storeGet (submitOTP ⟨"t0", true, true, "Invalid OTP entered"⟩
        ⟨[("s1", ⟨0, 1, "9876543210", []⟩)], [], 2⟩ "s1" "000000").2.sessions "s1").isSome
      = true := by
  exact (submitOTP_spec ⟨"t0", true, true, "Invalid OTP entered"⟩
      ⟨[("s1", ⟨0, 1, "9876543210", []⟩)], [], 2⟩ "s1" "000000").2.2.2.2
    (by decide) (by decide) (Or.inl (by decide))

/-- C10: operations addressed to session id `s` leave every other id
`t`'s Session Store entry (browser handle, page handle, mobile number,
diagnostic log) unchanged. -/
theorem distinct_sessions_frame (st : ScraperState) (s t : String) (h : t ≠ s) :
    storeGet (cleanupSession st s).sessions t = storeGet st.sessions t ∧
    (∀ env otp, storeGet (submitOTP env st s otp).2.sessions t = storeGet st.sessions t) ∧
    (∀ now msg, storeGet (addDebug now st s msg).sessions t = storeGet st.sessions t) := by
  refine ⟨?_, fun env otp => (submitOTP_onlyLog env st s otp).2.2.2 t h,
    fun now msg => storeGet_addDebug_ne now st s msg t h⟩
  unfold cleanupSession
  cases hget : storeGet st.sessions s with
  | none => rfl
  | some x => simpa using storeGet_storeDelete_ne st.sessions s t h

/-- Witness for `distinct_sessions_frame` on a two-session store. -/
theorem distinct_sessions_frame_witness :
    storeGet (cleanupSession
        ⟨[("s1", ⟨0, 1, "111", []⟩), ("s2", ⟨2, 3, "222", []⟩)], [], 4⟩ "s1").sessions "s2" =
      storeGet ([("s1", ⟨0, 1, "111", []⟩), ("s2", ⟨2, 3, "222", []⟩)] : Store) "s2" := by
  exact (distinct_sessions_frame
    ⟨[("s1", ⟨0, 1, "111", []⟩), ("s2", ⟨2, 3, "222", []⟩)], [], 4⟩ "s1" "s2" (by decide)).1

/-- Environment of one `initSwiggyLogin` call: the clock, whether the
browser launch (browser + context + page creation, spec §4.3 `launch()`)
succeeds, whether the 30 s navigation succeeds, the landed URL, the
already-logged-in signal, and the three selector-fallback outcomes. -/
structure LoginEnv where
  now : String
  launchOk : Bool
  launchErrorMsg : String
  gotoOk : Bool
  gotoErrorMsg : String
  pageUrl : String
  isLoggedIn : Bool
  loginButtonFound : Bool
  mobileInputFound : Bool
  continueButtonFound : Bool
  deriving Repr, DecidableEq

/-- Result shape of `initSwiggyLogin`; fields absent on a given JS return
path are `none`. -/
structure LoginResult where
  success : Bool
  message : String
  sessionId : Option String
  needsOtp : Option Bool
  error : Option String
  debugLog : List String
  deriving Repr, DecidableEq

/-- The catch block of `initSwiggyLogin` (lines 131-147): log the error,
snapshot the log, then close-and-delete the session when present (the
same release-and-remove sequence as `cleanupSession`), and return the
structured failure. -/
def loginCatch (now : String) (st : ScraperState) (sessionId errMsg : String) :
    LoginResult × ScraperState :=
  let st1 := addDebug now st sessionId ("Login error: " ++ errMsg)
  ({ success := false, message := "Login failed: " ++ errMsg, sessionId := none,
     needsOtp := none, error := some errMsg, debugLog := getDebugLog st1 sessionId },
   cleanupSession st1 sessionId)

/-- Lines 38-52 of `initSwiggyLogin`: launch browser/context/page
(allocating two fresh handles), store the session record, and write the
first two diagnostic entries. -/
def loginSessionInit (env : LoginEnv) (st : ScraperState) (mobileNumber sessionId : String) :
    ScraperState :=
  let b := st.nextHandle
  let p := st.nextHandle + 1
  let st1 := { st with nextHandle := st.nextHandle + 2 }
  let st2 := { st1 with sessions := storeSet st1.sessions sessionId ⟨b, p, mobileNumber, []⟩ }
  let st3 := addDebug env.now st2 sessionId "Browser launched in headless mode"
  addDebug env.now st3 sessionId ("Session " ++ sessionId ++ " created for " ++ mobileNumber)

/-- `initSwiggyLogin(mobileNumber, sessionId)` (lines 35-148). -/
def initSwiggyLogin (env : LoginEnv) (st : ScraperState) (mobileNumber sessionId : String) :
    LoginResult × ScraperState :=
  if env.launchOk = false then
    loginCatch env.now st sessionId env.launchErrorMsg
  else
    let st4 := loginSessionInit env st mobileNumber sessionId
    if env.gotoOk = false then
      loginCatch env.now st4 sessionId env.gotoErrorMsg
    else
      let st5 := addDebug env.now st4 sessionId ("Navigated to " ++ env.pageUrl)
      let st6 := addDebug env.now st5 sessionId
        ("Login state detected: " ++ if env.isLoggedIn then "already logged in" else "needs login")
      if env.isLoggedIn then
        ({ success := true, message := "Already logged in", sessionId := some sessionId,
           needsOtp := some false, error := none, debugLog := getDebugLog st6 sessionId }, st6)
      else
        let st7 :=
          if env.loginButtonFound then
            addDebug env.now st6 sessionId "Found login button, clicking"
          else
            addDebug env.now st6 sessionId "Login button not found, continuing to search for inputs"
        if env.mobileInputFound = false then
          let st8 := addDebug env.now st7 sessionId "Could not locate mobile number input on page"
          loginCatch env.now st8 sessionId "Could not find mobile number input field"
        else
          let st8 := addDebug env.now st7 sessionId "Filling mobile number into input"
          let st9 :=
            if env.continueButtonFound then
              addDebug env.now st8 sessionId "Clicking button to request OTP"
            else
              addDebug env.now st8 sessionId "Continue/Send OTP button not found after entering mobile"
          ({ success := true,
             message := "OTP sent to mobile number. Please submit OTP using /api/submit-otp endpoint",
             sessionId := some sessionId, needsOtp := some true, error := none,
             debugLog := getDebugLog st9 sessionId }, st9)

theorem storeGet_loginCatch (now : String) (st : ScraperState) (sid m : String) :
    storeGet (loginCatch now st sid m).2.sessions sid = none :=
  storeGet_cleanupSession_self _ sid

theorem storeGet_addDebug_browser (now : String) (st : ScraperState) (k m t : String) :
    Option.map Session.browser (storeGet (addDebug now st k m).sessions t) =
      Option.map Session.browser (storeGet st.sessions t) := by
  by_cases h : t = k
  · subst h
    cases hg : storeGet st.sessions t with
    | none => simp [addDebug, hg]
    | some s => simp [storeGet_addDebug_self now st t m s hg, hg]
  · rw [storeGet_addDebug_ne now st k m t h]

theorem cleanupSession_closes (st : ScraperState) (sid : String) (b : Nat)
    (h : Option.map Session.browser (storeGet st.sessions sid) = some b) :
    b ∈ (cleanupSession st sid).closedBrowsers := by
  cases hg : storeGet st.sessions sid with
  | none => rw [hg] at h; cases h
  | some s =>
      rw [hg] at h
      have hb : s.browser = b := by
        simpa using h
      unfold cleanupSession
      rw [hg]
      exact hb ▸ List.mem_cons_self _ _

theorem loginCatch_closes (now : String) (st : ScraperState) (sid m : String) (b : Nat)
    (h : Option.map Session.browser (storeGet st.sessions sid) = some b) :
    b ∈ (loginCatch now st sid m).2.closedBrowsers := by
  show b ∈ (cleanupSession (addDebug now st sid ("Login error: " ++ m)) sid).closedBrowsers
  apply cleanupSession_closes
  rw [storeGet_addDebug_browser]
  exact h

theorem storeGet_loginSessionInit (env : LoginEnv) (st : ScraperState) (mob sid : String) :
    ∃ dl, storeGet (loginSessionInit env st mob sid).sessions sid =
      some ⟨st.nextHandle, st.nextHandle + 1, mob, dl⟩ := by
  have h2 : storeGet (storeSet st.sessions sid
        ⟨st.nextHandle, st.nextHandle + 1, mob, []⟩) sid =
      some ⟨st.nextHandle, st.nextHandle + 1, mob, []⟩ :=
    storeGet_storeSet_self _ _ _
  have h3 := storeGet_addDebug_self env.now
      ⟨storeSet st.sessions sid ⟨st.nextHandle, st.nextHandle + 1, mob, []⟩,
        st.closedBrowsers, st.nextHandle + 2⟩
      sid "Browser launched in headless mode" _ h2
  have h4 := storeGet_addDebug_self env.now _ sid
      ("Session " ++ sid ++ " created for " ++ mob) _ h3
  exact ⟨_, h4⟩

theorem storeGet_cleanupSession_ne (st : ScraperState) (sid t : String) (h : t ≠ sid) :
    storeGet (cleanupSession st sid).sessions t = storeGet st.sessions t := by
  unfold cleanupSession
  cases hget : storeGet st.sessions sid with
  | none => rfl
  | some x => simpa using storeGet_storeDelete_ne st.sessions sid t h

theorem storeGet_loginCatch_ne (now : String) (st : ScraperState) (sid m t : String)
    (h : t ≠ sid) :
    storeGet (loginCatch now st sid m).2.sessions t = storeGet st.sessions t := by
  unfold loginCatch
  rw [storeGet_cleanupSession_ne _ sid t h, storeGet_addDebug_ne _ _ _ _ _ h]

theorem storeGet_loginSessionInit_ne (env : LoginEnv) (st : ScraperState) (mob sid t : String)
    (h : t ≠ sid) :
    storeGet (loginSessionInit env st mob sid).sessions t = storeGet st.sessions t := by
  unfold loginSessionInit
  rw [storeGet_addDebug_ne _ _ _ _ _ h, storeGet_addDebug_ne _ _ _ _ _ h]
  exact storeGet_storeSet_ne _ _ _ _ h

/-- C6: every uncaught failure of the Login Phase (launch, navigation,
or missing mobile-number input) is converted to a structured
`success = false` result carrying the error; after any failure return
the session id is absent from the Store, and whenever the browser had
been launched its handle has been closed — no failed login leaves a
live session behind. -/
theorem init_eq_launchFail (env : LoginEnv) (st : ScraperState) (mob sid : String)
    (hl : env.launchOk = false) :
    initSwiggyLogin env st mob sid = loginCatch env.now st sid env.launchErrorMsg := by
  simp only [initSwiggyLogin, hl, if_true, ite_true, eq_self_iff_true]

theorem init_eq_gotoFail (env : LoginEnv) (st : ScraperState) (mob sid : String)
    (hl : env.launchOk = true) (hg : env.gotoOk = false) :
    initSwiggyLogin env st mob sid =
      loginCatch env.now (loginSessionInit env st mob sid) sid env.gotoErrorMsg := by
  simp only [initSwiggyLogin, hl, hg, Bool.true_eq_false, if_false, ite_false, if_true,
    ite_true, eq_self_iff_true]

theorem init_success_already (env : LoginEnv) (st : ScraperState) (mob sid : String)
    (hl : env.launchOk = true) (hg : env.gotoOk = true) (hli : env.isLoggedIn = true) :
    (initSwiggyLogin env st mob sid).1.success = true := by
  simp only [initSwiggyLogin, hl, hg, hli, Bool.true_eq_false, if_false, ite_false,
    if_true, ite_true, eq_self_iff_true]

theorem init_success_otp (env : LoginEnv) (st : ScraperState) (mob sid : String)
    (hl : env.launchOk = true) (hg : env.gotoOk = true)
    (hli : env.isLoggedIn = false) (hmi : env.mobileInputFound = true) :
    (initSwiggyLogin env st mob sid).1.success = true := by
  simp only [initSwiggyLogin, hl, hg, hli, hmi, Bool.true_eq_false, Bool.false_eq_true,
    if_false, ite_false, if_true, ite_true, eq_self_iff_true]

theorem init_eq_mobileFail (env : LoginEnv) (st : ScraperState) (mob sid : String)
    (hl : env.launchOk = true) (hg : env.gotoOk = true)
    (hli : env.isLoggedIn = false) (hmi : env.mobileInputFound = false) :
    initSwiggyLogin env st mob sid =
      loginCatch env.now
        (addDebug env.now
          (if env.loginButtonFound then
            addDebug env.now
              (addDebug env.now
                (addDebug env.now (loginSessionInit env st mob sid) sid
                  ("Navigated to " ++ env.pageUrl)) sid
                ("Login state detected: " ++ "needs login")) sid
              "Found login button, clicking"
          else
            addDebug env.now
              (addDebug env.now
                (addDebug env.now (loginSessionInit env st mob sid) sid
                  ("Navigated to " ++ env.pageUrl)) sid
                ("Login state detected: " ++ "needs login")) sid
              "Login button not found, continuing to search for inputs") sid
          "Could not locate mobile number input on page") sid
        "Could not find mobile number input field" := by
  simp only [initSwiggyLogin, hl, hg, hli, hmi, Bool.true_eq_false, Bool.false_eq_true,
    if_false, ite_false, if_true, ite_true, eq_self_iff_true]

theorem login_failure_boundary (env : LoginEnv) (st : ScraperState) (mob sid : String) :
    ((initSwiggyLogin env st mob sid).1.success = false →
      storeGet (initSwiggyLogin env st mob sid).2.sessions sid = none ∧
      (initSwiggyLogin env st mob sid).1.error.isSome = true) ∧
    ((initSwiggyLogin env st mob sid).1.success = false → env.launchOk = true →
      st.nextHandle ∈ (initSwiggyLogin env st mob sid).2.closedBrowsers) ∧
    ((env.launchOk = false ∨ env.gotoOk = false ∨
        (env.isLoggedIn = false ∧ env.mobileInputFound = false)) →
      (initSwiggyLogin env st mob sid).1.success = false) := by
  refine ⟨?_, ?_, ?_⟩
  · intro hsucc
    cases hl : env.launchOk with
    | false =>
        rw [init_eq_launchFail env st mob sid hl]
        exact ⟨storeGet_loginCatch _ _ _ _, rfl⟩
    | true =>
        cases hg : env.gotoOk with
        | false =>
            rw [init_eq_gotoFail env st mob sid hl hg]
            exact ⟨storeGet_loginCatch _ _ _ _, rfl⟩
        | true =>
            cases hli : env.isLoggedIn with
            | true =>
                rw [init_success_already env st mob sid hl hg hli] at hsucc
                cases hsucc
            | false =>
                cases hmi : env.mobileInputFound with
                | false =>
                    rw [init_eq_mobileFail env st mob sid hl hg hli hmi]
                    exact ⟨storeGet_loginCatch _ _ _ _, rfl⟩
                | true =>
                    rw [init_success_otp env st mob sid hl hg hli hmi] at hsucc
                    cases hsucc
  · intro hsucc hl
    cases hg : env.gotoOk with
    | false =>
        rw [init_eq_gotoFail env st mob sid hl hg]
        obtain ⟨dl, h4⟩ := storeGet_loginSessionInit env st mob sid
        exact loginCatch_closes env.now _ sid env.gotoErrorMsg st.nextHandle
          (by rw [h4]; rfl)
    | true =>
        cases hli : env.isLoggedIn with
        | true =>
            rw [init_success_already env st mob sid hl hg hli] at hsucc
            cases hsucc
        | false =>
            cases hmi : env.mobileInputFound with
            | true =>
                rw [init_success_otp env st mob sid hl hg hli hmi] at hsucc
                cases hsucc
            | false =>
                rw [init_eq_mobileFail env st mob sid hl hg hli hmi]
                apply loginCatch_closes
                rw [storeGet_addDebug_browser]
                split
                · rw [storeGet_addDebug_browser, storeGet_addDebug_browser,
                    storeGet_addDebug_browser]
                  obtain ⟨dl, h4⟩ := storeGet_loginSessionInit env st mob sid
                  rw [h4]
                  rfl
                · rw [storeGet_addDebug_browser, storeGet_addDebug_browser,
                    storeGet_addDebug_browser]
                  obtain ⟨dl, h4⟩ := storeGet_loginSessionInit env st mob sid
                  rw [h4]
                  rfl
  · intro hdis
    cases hl : env.launchOk with
    | false =>
        rw [init_eq_launchFail env st mob sid hl]
        rfl
    | true =>
        cases hg : env.gotoOk with
        | false =>
            rw [init_eq_gotoFail env st mob sid hl hg]
            rfl
        | true =>
            rcases hdis with h | h | ⟨h1, h2⟩
            · rw [hl] at h
              cases h
            · rw [hg] at h
              cases h
            · rw [init_eq_mobileFail env st mob sid hl hg h1 h2]
              rfl

/-- Witness for `login_failure_boundary`: a failed navigation destroys
the freshly created session and closes its browser. -/
theorem login_failure_boundary_witness :
    storeGet (initSwiggyLogin
        ⟨"t0", true, "", false, "net timeout", "", false, false, false, false⟩
        ⟨[], [], 0⟩ "9876543210" "sA").2.sessions "sA" = none ∧
    (0 : Nat) ∈ (initSwiggyLogin
        ⟨"t0", true, "", false, "net timeout", "", false, false, false, false⟩
        ⟨[], [], 0⟩ "9876543210" "sA").2.closedBrowsers := by
  have h := login_failure_boundary
      ⟨"t0", true, "", false, "net timeout", "", false, false, false, false⟩
      ⟨[], [], 0⟩ "9876543210" "sA"
  have hfail := h.2.2 (Or.inr (Or.inl rfl))
  exact ⟨(h.1 hfail).1, h.2.1 hfail rfl⟩

theorem storeGet_eq_none_iff (st : Store) (k : String) :
    storeGet st k = none ↔ k ∉ st.map Prod.fst := by
  induction st with
  | nil => simp [storeGet]
  | cons hd tl ih =>
      obtain ⟨k', s'⟩ := hd
      by_cases h : k' = k
      · subst h
        simp [storeGet]
      · have h' : ¬ k = k' := fun hh => h hh.symm
        simp [storeGet, h, h', ih]

theorem keys_storeSet (st : Store) (k : String) (s : Session) :
    (storeSet st k s).map Prod.fst =
      if storeGet st k = none then st.map Prod.fst ++ [k] else st.map Prod.fst := by
  induction st with
  | nil => simp [storeSet, storeGet]
  | cons hd tl ih =>
      obtain ⟨k', s'⟩ := hd
      by_cases h : k' = k
      · subst h
        simp [storeSet, storeGet]
      · simp only [storeSet, storeGet, h, if_false, ite_false, List.map_cons, ih]
        split <;> rfl

theorem nodup_keys_storeSet (st : Store) (k : String) (s : Session)
    (h : (st.map Prod.fst).Nodup) : ((storeSet st k s).map Prod.fst).Nodup := by
  rw [keys_storeSet]
  split
  · next hn =>
      rw [storeGet_eq_none_iff] at hn
      simp [List.nodup_append, h, hn]
  · exact h

theorem mem_keys_storeDelete (st : Store) (k a : String)
    (h : a ∈ (storeDelete st k).map Prod.fst) : a ∈ st.map Prod.fst := by
  induction st with
  | nil => simpa [storeDelete] using h
  | cons hd tl ih =>
      obtain ⟨k', s'⟩ := hd
      by_cases hk : k' = k
      · subst hk
        simp only [storeDelete, if_true, ite_true, eq_self_iff_true] at h
        simp [ih h]
      · simp only [storeDelete, hk, if_false, ite_false, List.map_cons, List.mem_cons] at h ⊢
        rcases h with h | h
        · exact Or.inl h
        · exact Or.inr (ih h)

theorem nodup_keys_storeDelete (st : Store) (k : String)
    (h : (st.map Prod.fst).Nodup) : ((storeDelete st k).map Prod.fst).Nodup := by
  induction st with
  | nil => simp [storeDelete]
  | cons hd tl ih =>
      obtain ⟨k', s'⟩ := hd
      simp only [List.map_cons, List.nodup_cons] at h
      obtain ⟨hnotin, htl⟩ := h
      by_cases hk : k' = k
      · subst hk
        simp only [storeDelete, if_true, ite_true, eq_self_iff_true]
        exact ih htl
      · simp only [storeDelete, hk, if_false, ite_false, List.map_cons, List.nodup_cons]
        exact ⟨fun hmem => hnotin (mem_keys_storeDelete tl k k' hmem), ih htl⟩

theorem nodup_keys_addDebug (now : String) (st : ScraperState) (k m : String)
    (h : (st.sessions.map Prod.fst).Nodup) :
    ((addDebug now st k m).sessions.map Prod.fst).Nodup := by
  unfold addDebug
  cases hg : storeGet st.sessions k with
  | none => exact h
  | some s => exact nodup_keys_storeSet _ _ _ h

theorem nodup_keys_cleanupSession (st : ScraperState) (k : String)
    (h : (st.sessions.map Prod.fst).Nodup) :
    ((cleanupSession st k).sessions.map Prod.fst).Nodup := by
  unfold cleanupSession
  cases hg : storeGet st.sessions k with
  | none => exact h
  | some s => exact nodup_keys_storeDelete _ _ h

theorem nodup_keys_loginCatch (now : String) (st : ScraperState) (sid m : String)
    (h : (st.sessions.map Prod.fst).Nodup) :
    ((loginCatch now st sid m).2.sessions.map Prod.fst).Nodup := by
  unfold loginCatch
  exact nodup_keys_cleanupSession _ _ (nodup_keys_addDebug _ _ _ _ h)

theorem nodup_keys_loginSessionInit (env : LoginEnv) (st : ScraperState) (mob sid : String)
    (h : (st.sessions.map Prod.fst).Nodup) :
    ((loginSessionInit env st mob sid).sessions.map Prod.fst).Nodup := by
  unfold loginSessionInit
  apply nodup_keys_addDebug
  apply nodup_keys_addDebug
  exact nodup_keys_storeSet _ _ _ h

/-- The sessions map of `st'` agrees with `st` on every id other than
`sid`. -/
def FrameExcept (sid : String) (st st' : ScraperState) : Prop :=
  ∀ t, t ≠ sid → storeGet st'.sessions t = storeGet st.sessions t

theorem frameExcept_refl (sid : String) (st : ScraperState) : FrameExcept sid st st :=
  fun _ _ => rfl

theorem frameExcept_addDebug (sid now m : String) {st st' : ScraperState}
    (h : FrameExcept sid st st') : FrameExcept sid st (addDebug now st' sid m) :=
  fun t ht => (storeGet_addDebug_ne now st' sid m t ht).trans (h t ht)

theorem frameExcept_ite (sid : String) {st : ScraperState} (c : Prop) [Decidable c]
    {a b : ScraperState} (ha : FrameExcept sid st a) (hb : FrameExcept sid st b) :
    FrameExcept sid st (if c then a else b) := by
  split
  · exact ha
  · exact hb

theorem frameExcept_cleanupSession (sid : String) {st st' : ScraperState}
    (h : FrameExcept sid st st') : FrameExcept sid st (cleanupSession st' sid) :=
  fun t ht => (storeGet_cleanupSession_ne st' sid t ht).trans (h t ht)

theorem frameExcept_loginCatch (sid now m : String) {st st' : ScraperState}
    (h : FrameExcept sid st st') : FrameExcept sid st (loginCatch now st' sid m).2 := by
  unfold loginCatch
  exact frameExcept_cleanupSession sid (frameExcept_addDebug sid now _ h)

theorem frameExcept_loginSessionInit (env : LoginEnv) (st : ScraperState) (mob sid : String) :
    FrameExcept sid st (loginSessionInit env st mob sid) := by
  intro t ht
  exact storeGet_loginSessionInit_ne env st mob sid t ht

/-- Counterexample to C7 as stated: calling `initSwiggyLogin` with an id
that is already live (browser handle 0) silently replaces the stored
Session with the new one (browser handle 2, the new mobile number) and
never closes the old browser — `sessions.set` overwrites. -/
theorem session_replacement_cex :
    Option.map Session.browser (storeGet (initSwiggyLogin
        ⟨"t0", true, "", true, "", "url", false, true, true, true⟩
        ⟨[("s", ⟨0, 1, "111", []⟩)], [], 2⟩ "222" "s").2.sessions "s") = some 2 ∧
    Option.map Session.mobileNumber (storeGet (initSwiggyLogin
        ⟨"t0", true, "", true, "", "url", false, true, true, true⟩
        ⟨[("s", ⟨0, 1, "111", []⟩)], [], 2⟩ "222" "s").2.sessions "s") = some "222" ∧
    (0 : Nat) ∉ (initSwiggyLogin
        ⟨"t0", true, "", true, "", "url", false, true, true, true⟩
        ⟨[("s", ⟨0, 1, "111", []⟩)], [], 2⟩ "222" "s").2.closedBrowsers ∧
    (initSwiggyLogin
        ⟨"t0", true, "", true, "", "url", false, true, true, true⟩
        ⟨[("s", ⟨0, 1, "111", []⟩)], [], 2⟩ "222" "s").1.success = true := by
  refine ⟨rfl, rfl, by decide, rfl⟩

/-- C7 (amended): the Store is a map, so an id denotes at most one live
Session — `initSwiggyLogin` preserves duplicate-freeness of the stored
ids — and creation never disturbs any other id's entry; uniqueness under
reuse, however, is only as good as the caller's fresh-id guarantee,
because `sessions.set` on a live id silently replaces the stored Session
(see the counterexample). -/
theorem session_uniqueness_amended :
    (∀ env st mob sid, FrameExcept sid st (initSwiggyLogin env st mob sid).2) ∧
    (∀ env st mob sid, (st.sessions.map Prod.fst).Nodup →
        ((initSwiggyLogin env st mob sid).2.sessions.map Prod.fst).Nodup) := by
  constructor
  · intro env st mob sid
    cases hl : env.launchOk with
    | false =>
        rw [init_eq_launchFail env st mob sid hl]
        exact frameExcept_loginCatch sid env.now _ (frameExcept_refl sid st)
    | true =>
        cases hg : env.gotoOk with
        | false =>
            rw [init_eq_gotoFail env st mob sid hl hg]
            exact frameExcept_loginCatch sid env.now _
              (frameExcept_loginSessionInit env st mob sid)
        | true =>
            cases hli : env.isLoggedIn with
            | true =>
                simp only [initSwiggyLogin, hl, hg, hli, Bool.true_eq_false, if_false,
                  ite_false, if_true, ite_true, eq_self_iff_true]
                exact frameExcept_addDebug sid env.now _
                  (frameExcept_addDebug sid env.now _
                    (frameExcept_loginSessionInit env st mob sid))
            | false =>
                cases hmi : env.mobileInputFound with
                | false =>
                    rw [init_eq_mobileFail env st mob sid hl hg hli hmi]
                    apply frameExcept_loginCatch
                    apply frameExcept_addDebug
                    apply frameExcept_ite
                    · exact frameExcept_addDebug sid env.now _
                        (frameExcept_addDebug sid env.now _
                          (frameExcept_addDebug sid env.now _
                            (frameExcept_loginSessionInit env st mob sid)))
                    · exact frameExcept_addDebug sid env.now _
                        (frameExcept_addDebug sid env.now _
                          (frameExcept_addDebug sid env.now _
                            (frameExcept_loginSessionInit env st mob sid)))
                | true =>
                    simp only [initSwiggyLogin, hl, hg, hli, hmi, Bool.true_eq_false,
                      Bool.false_eq_true, if_false, ite_false, if_true, ite_true,
                      eq_self_iff_true]
                    apply frameExcept_ite
                    · apply frameExcept_addDebug
                      apply frameExcept_addDebug
                      apply frameExcept_ite
                      · exact frameExcept_addDebug sid env.now _
                          (frameExcept_addDebug sid env.now _
                            (frameExcept_addDebug sid env.now _
                              (frameExcept_loginSessionInit env st mob sid)))
                      · exact frameExcept_addDebug sid env.now _
                          (frameExcept_addDebug sid env.now _
                            (frameExcept_addDebug sid env.now _
                              (frameExcept_loginSessionInit env st mob sid)))
                    · apply frameExcept_addDebug
                      apply frameExcept_addDebug
                      apply frameExcept_ite
                      · exact frameExcept_addDebug sid env.now _
                          (frameExcept_addDebug sid env.now _
                            (frameExcept_addDebug sid env.now _
                              (frameExcept_loginSessionInit env st mob sid)))
                      · exact frameExcept_addDebug sid env.now _
                          (frameExcept_addDebug sid env.now _
                            (frameExcept_addDebug sid env.now _
                              (frameExcept_loginSessionInit env st mob sid)))
  · intro env st mob sid hnd
    cases hl : env.launchOk with
    | false =>
        rw [init_eq_launchFail env st mob sid hl]
        exact nodup_keys_loginCatch _ _ _ _ hnd
    | true =>
        have hnd4 : ((loginSessionInit env st mob sid).sessions.map Prod.fst).Nodup :=
          nodup_keys_loginSessionInit env st mob sid hnd
        cases hg : env.gotoOk with
        | false =>
            rw [init_eq_gotoFail env st mob sid hl hg]
            exact nodup_keys_loginCatch _ _ _ _ hnd4
        | true =>
            cases hli : env.isLoggedIn with
            | true =>
                simp only [initSwiggyLogin, hl, hg, hli, Bool.true_eq_false, if_false,
                  ite_false, if_true, ite_true, eq_self_iff_true]
                exact nodup_keys_addDebug _ _ _ _ (nodup_keys_addDebug _ _ _ _ hnd4)
            | false =>
                cases hmi : env.mobileInputFound with
                | false =>
                    rw [init_eq_mobileFail env st mob sid hl hg hli hmi]
                    apply nodup_keys_loginCatch
                    apply nodup_keys_addDebug
                    split
                    · exact nodup_keys_addDebug _ _ _ _
                        (nodup_keys_addDebug _ _ _ _ (nodup_keys_addDebug _ _ _ _ hnd4))
                    · exact nodup_keys_addDebug _ _ _ _
                        (nodup_keys_addDebug _ _ _ _ (nodup_keys_addDebug _ _ _ _ hnd4))
                | true =>
                    simp only [initSwiggyLogin, hl, hg, hli, hmi, Bool.true_eq_false,
                      Bool.false_eq_true, if_false, ite_false, if_true, ite_true,
                      eq_self_iff_true]
                    split
                    all_goals
                      apply nodup_keys_addDebug
                      apply nodup_keys_addDebug
                      split
                      · exact nodup_keys_addDebug _ _ _ _
                          (nodup_keys_addDebug _ _ _ _ (nodup_keys_addDebug _ _ _ _ hnd4))
                      · exact nodup_keys_addDebug _ _ _ _
                          (nodup_keys_addDebug _ _ _ _ (nodup_keys_addDebug _ _ _ _ hnd4))

/-- Witness for `session_uniqueness_amended` on a concrete store. -/
theorem session_uniqueness_amended_witness :
    ((initSwiggyLogin ⟨"t0", true, "", true, "", "url", false, true, true, true⟩
        ⟨[("a", ⟨0, 1, "111", []⟩)], [], 2⟩ "222" "b").2.sessions.map Prod.fst).Nodup ∧
    storeGet (initSwiggyLogin ⟨"t0", true, "", true, "", "url", false, true, true, true⟩
        ⟨[("a", ⟨0, 1, "111", []⟩)], [], 2⟩ "222" "b").2.sessions "a" =
      some ⟨0, 1, "111", []⟩ := by
  constructor
  · exact session_uniqueness_amended.2
      ⟨"t0", true, "", true, "", "url", false, true, true, true⟩
      ⟨[("a", ⟨0, 1, "111", []⟩)], [], 2⟩ "222" "b" (by decide)
  · rw [session_uniqueness_amended.1
      ⟨"t0", true, "", true, "", "url", false, true, true, true⟩
      ⟨[("a", ⟨0, 1, "111", []⟩)], [], 2⟩ "222" "b" "a" (by decide)]
    rfl

/-- JS regex `\s` / `String.prototype.trim` whitespace class (ECMAScript
WhiteSpace plus LineTerminator code points). -/
def jsWhitespace (c : Char) : Bool :=
  c = ' ' || c = '\t' || c = '\n' || c = '\r' ||
  c.val = 0x0b || c.val = 0x0c || c.val = 0xa0 || c.val = 0x1680 ||
  (0x2000 ≤ c.val && c.val ≤ 0x200a) ||
  c.val = 0x2028 || c.val = 0x2029 || c.val = 0x202f || c.val = 0x205f ||
  c.val = 0x3000 || c.val = 0xfeff

/-- Value of a string of decimal digits. -/
def digitsToNat (ds : List Char) : Nat :=
  ds.foldl (fun n c => n * 10 + (c.toNat - 48)) 0

/-- The `(?:,\d+)*` part of the amount regex, greedily: consume runs of
one comma followed by at least one digit; return the consumed characters
and the remainder.  Structural recursion on a fuel bounded by the input
length; the fuel never runs out because every round consumes at least
two characters while spending one unit. -/
def commaGroupsAux : Nat → List Char → List Char × List Char
  | _, [] => ([], [])
  | 0, cs => ([], cs)
  | fuel + 1, c :: rest =>
      if c = ',' then
        let ds := rest.takeWhile Char.isDigit
        if ds.isEmpty then ([], c :: rest)
        else
          let pr := commaGroupsAux fuel (rest.dropWhile Char.isDigit)
          (',' :: (ds ++ pr.1), pr.2)
      else ([], c :: rest)

def commaGroups (cs : List Char) : List Char × List Char :=
  commaGroupsAux cs.length cs

/-- Attempt the amount pattern `\s*(\d+(?:,\d+)*(?:\.\d+)?)` at the
position just after a `₹`, returning the captured group. -/
def matchAmountAt (cs : List Char) : Option (List Char) :=
  let cs1 := cs.dropWhile jsWhitespace
  let ds := cs1.takeWhile Char.isDigit
  if ds.isEmpty then none
  else
    let pr := commaGroups (cs1.dropWhile Char.isDigit)
    let dec :=
      match pr.2 with
      | '.' :: r =>
          let fs := r.takeWhile Char.isDigit
          if fs.isEmpty then [] else '.' :: fs
      | _ => []
    some (ds ++ pr.1 ++ dec)

/-- `text.match(/₹\s*(\d+(?:,\d+)*(?:\.\d+)?)/)` (line 282): capture
group of the first match, scanning start positions left to right. -/
def amountMatch : List Char → Option (List Char)
  | [] => none
  | c :: cs =>
      if c = '₹' then
        match matchAmountAt cs with
        | some cap => some cap
        | none => amountMatch cs
      else amountMatch cs

/-- `parseFloat(captured.replace(/,/g, ''))` (line 283) on a captured
amount group, modelled exactly over the rationals: strip the commas,
then integer part plus decimal fraction. -/
def parseAmount (cap : List Char) : ℚ :=
  let noCommas := cap.filter (fun c => c != ',')
  let intPart := digitsToNat (noCommas.takeWhile Char.isDigit)
  let rest := noCommas.dropWhile Char.isDigit
  if rest.head? = some '.' then
    (intPart : ℚ) + (digitsToNat rest.tail : ℚ) / ((10 : ℚ) ^ rest.tail.length)
  else (intPart : ℚ)

/-- Case-insensitive literal match: consume `pat` from the front of the
input, returning the consumed original-case characters and the rest. -/
def takeCi : List Char → List Char → Option (List Char × List Char)
  | [], cs => some ([], cs)
  | _ :: _, [] => none
  | p :: ps, c :: cs =>
      if p.toLower = c.toLower then
        (takeCi ps cs).map (fun pr => (c :: pr.1, pr.2))
      else none

/-- The month-name alternation of the date regex, in source order. -/
def monthNames : List (String × Nat) :=
  [("Jan", 1), ("Feb", 2), ("Mar", 3), ("Apr", 4), ("May", 5), ("Jun", 6),
   ("Jul", 7), ("Aug", 8), ("Sep", 9), ("Oct", 10), ("Nov", 11), ("Dec", 12)]

/-- Try each month name in order at the front of the input. -/
def matchMonthAt : List (String × Nat) → List Char →
    Option (List Char × Nat × List Char)
  | [], _ => none
  | (nm, idx) :: rest, cs =>
      match takeCi nm.data cs with
      | some pr => some (pr.1, idx, pr.2)
      | none => matchMonthAt rest cs

/-- After the day digits: `\s+(month)\s+\d{4}` — greedy whitespace, a
month name, greedy whitespace, then at least four digits of which the
first four are taken.  Returns (captured text, day, month, year). -/
def tryDayRest (dayDigits rest : List Char) :
    Option (List Char × Nat × Nat × Nat) :=
  let sp1 := rest.takeWhile jsWhitespace
  if sp1.isEmpty then none
  else
    let rest1 := rest.dropWhile jsWhitespace
    match matchMonthAt monthNames rest1 with
    | none => none
    | some (mcons, midx, rest2) =>
        let sp2 := rest2.takeWhile jsWhitespace
        if sp2.isEmpty then none
        else
          let rest3 := rest2.dropWhile jsWhitespace
          let yd := rest3.takeWhile Char.isDigit
          if yd.length < 4 then none
          else
            some (dayDigits ++ sp1 ++ mcons ++ sp2 ++ yd.take 4,
              digitsToNat dayDigits, midx, digitsToNat (yd.take 4))

/-- Attempt the date pattern at one start position: `\d{1,2}` greedy
(two digits first, backtracking to one), then the rest. -/
def tryDateAt : List Char → Option (List Char × Nat × Nat × Nat)
  | c1 :: c2 :: rest =>
      if c1.isDigit then
        if c2.isDigit then
          match tryDayRest [c1, c2] rest with
          | some r => some r
          | none => tryDayRest [c1] (c2 :: rest)
        else tryDayRest [c1] (c2 :: rest)
      else none
  | [c1] => if c1.isDigit then tryDayRest [c1] [] else none
  | [] => none

/-- `text.match(/(\d{1,2}\s+(?:Jan|...|Dec)\s+\d{4})/i)` (line 286):
first match, scanning start positions left to right. -/
def dateMatchAux : List Char → Option (List Char × Nat × Nat × Nat)
  | [] => none
  | c :: cs =>
      match tryDateAt (c :: cs) with
      | some r => some r
      | none => dateMatchAux cs

/-- Days from 1970-01-01 of a proleptic-Gregorian civil date (year,
month 1-12, day counted with rollover from the first of the month). -/
def daysFromCivil (y : Int) (m : Nat) (d : Nat) : Int :=
  let y' : Int := if m ≤ 2 then y - 1 else y
  let era : Int := y' / 400
  let yoe : Int := y' - era * 400
  let mp : Int := if 2 < m then (m : Int) - 3 else (m : Int) + 9
  let doy : Int := (153 * mp + 2) / 5 + (d : Int) - 1
  let doe : Int := yoe * 365 + yoe / 4 - yoe / 100 + doy
  era * 146097 + doe - 719468

/-- Civil date (year, month, day) of a count of days from 1970-01-01. -/
def civilFromDays (z0 : Int) : Int × Nat × Nat :=
  let z := z0 + 719468
  let era : Int := z / 146097
  let doe : Int := z - era * 146097
  let yoe : Int := (doe - doe / 1460 + doe / 36524 - doe / 146096) / 365
  let y : Int := yoe + era * 400
  let doy : Int := doe - (365 * yoe + yoe / 4 - yoe / 100)
  let mp : Int := (5 * doy + 2) / 153
  let d : Int := doy - (153 * mp + 2) / 5 + 1
  let m : Int := if mp < 10 then mp + 3 else mp - 9
  (if m ≤ 2 then y + 1 else y, m.toNat, d.toNat)

/-- Zero-padded decimal rendering. -/
def padNat (w n : Nat) : String :=
  let s := toString n
  if s.length < w then String.mk (List.replicate (w - s.length) '0') ++ s else s

/-- The calendar-date part of `Date.prototype.toISOString`. -/
def formatIsoDate : Int × Nat × Nat → String
  | (y, m, d) => padNat 4 y.toNat ++ "-" ++ padNat 2 m ++ "-" ++ padNat 2 d

/-- Models `new Date(s).toISOString().split('T')[0]` (line 289) for a
matched "day month-name year" string on a host whose local clock runs
`off` minutes ahead of UTC: V8 parses such a string as local midnight of
the civil date (day overflow rolling into the next month, as in the
numeric `Date` constructor), and `toISOString` renders the corresponding
UTC instant.  The model is restricted to day 1-31 and year ≥ 100; outside
that range V8's legacy parser behaviour (two-digit-year remapping,
invalid-date rejection) is implementation-defined, and an invalid date
makes `toISOString` throw, which the extraction loop's inner catch turns
into a skipped element — here `none`. -/
def jsToIsoDate (off : Int) (day month year : Nat) : Option String :=
  if 1 ≤ day ∧ day ≤ 31 ∧ 100 ≤ year then
    let localDays := daysFromCivil (year : Int) month day
    some (formatIsoDate (civilFromDays ((localDays * 1440 - off) / 1440)))
  else none

/-- JS `String.prototype.trim`. -/
def jsTrim (s : String) : String :=
  String.mk (((s.data.dropWhile jsWhitespace).reverse.dropWhile jsWhitespace).reverse)

/-- Lines 293-294: first line whose trimmed text is non-empty, else
"Unknown"; the chosen line is trimmed at the push site (line 300). -/
def restaurantOf (text : String) : String :=
  let lines := (text.split (fun c => c = '\n')).filter (fun l => !(jsTrim l).isEmpty)
  jsTrim (match lines with
    | [] => "Unknown"
    | l :: _ => l)

/-- An extracted order record. -/
structure Order where
  date : String
  amount : ℚ
  restaurant : String
  deriving Repr, DecidableEq

/-- One iteration of the extraction loop (lines 276-306) on the rendered
text of one `[class*="order"]` element: the amount and date pattern
extractions, the restaurant heuristic, and the `if (amount && date)`
push guard — `amount` is truthy exactly when the parsed value is
nonzero, and a `toISOString` throw is swallowed by the inner catch,
emitting nothing. -/
def extractOrderFromText (off : Int) (text : String) : Option Order :=
  let amount : Option ℚ := (amountMatch text.data).map parseAmount
  match dateMatchAux text.data with
  | none => none
  | some (_, day, month, year) =>
      match jsToIsoDate off day month year with
      | none => none
      | some iso =>
          match amount with
          | none => none
          | some a => if a ≠ 0 then some ⟨iso, a, restaurantOf text⟩ else none

/-- The date-extraction pipeline of lines 286-289 in isolation: first
regex match, then `new Date(...).toISOString().split('T')[0]`. -/
def extractDate (off : Int) (text : String) : Option String :=
  match dateMatchAux text.data with
  | none => none
  | some (_, day, month, year) => jsToIsoDate off day month year

/-- Environment of one `scrapeOrders` call: the clock, the page URL
before and after navigation, whether the conditional navigation
succeeds, the rendered texts of the `[class*="order"]` elements, and the
host timezone offset (minutes ahead of UTC) governing date
normalisation. -/
structure ScrapeEnv where
  now : String
  currentUrl : String
  gotoOk : Bool
  gotoErrorMsg : String
  urlAfter : String
  elementTexts : List String
  tzOffsetMin : Int
  deriving Repr, DecidableEq

/-- Result shape of `scrapeOrders`; the session-not-found return carries
no `orders` field, modelled as `none`. -/
structure ScrapeResult where
  success : Bool
  message : String
  orders : Option (List Order)
  error : Option String
  debugLog : List String
  deriving Repr, DecidableEq

/-- The catch block of `scrapeOrders` (lines 334-351). -/
def scrapeCatch (now : String) (st : ScraperState) (sessionId errMsg : String) :
    ScrapeResult × ScraperState :=
  let st1 := addDebug now st sessionId ("Scraping error: " ++ errMsg)
  ({ success := false, message := "Scraping failed: " ++ errMsg, orders := some [],
     error := some errMsg, debugLog := getDebugLog st1 sessionId },
   cleanupSession st1 sessionId)

/-- `scrapeOrders(sessionId)` (lines 239-352): navigation happens (and
can fail) only when the current URL does not contain
"my-account/orders"; the extraction loop maps `extractOrderFromText`
over the matched elements; the session is closed and removed before
either the zero-results or the success return. -/
def scrapeOrders (env : ScrapeEnv) (st : ScraperState) (sessionId : String) :
    ScrapeResult × ScraperState :=
  match storeGet st.sessions sessionId with
  | none =>
      ({ success := false, message := "Session not found or expired. Please login first.",
         orders := none, error := none, debugLog := [] }, st)
  | some s =>
      if jsIncludes env.currentUrl "my-account/orders" = false ∧ env.gotoOk = false then
        scrapeCatch env.now st sessionId env.gotoErrorMsg
      else
        let st1 := addDebug env.now st sessionId ("Arrived at URL: " ++ env.urlAfter)
        let st2 := addDebug env.now st1 sessionId "Completed scrolling to load orders"
        let orders := env.elementTexts.filterMap (extractOrderFromText env.tzOffsetMin)
        let st3 := addDebug env.now st2 sessionId
          ("Order elements extracted: " ++ toString orders.length)
        let debugLog := getDebugLog st3 sessionId
        let st4 := { st3 with sessions := storeDelete st3.sessions sessionId,
                              closedBrowsers := s.browser :: st3.closedBrowsers }
        if orders.length = 0 then
          ({ success := false,
             message := "No orders found. Please make sure you have orders in your Swiggy account.",
             orders := some [], error := none, debugLog := debugLog }, st4)
        else
          ({ success := true,
             message := "Successfully scraped " ++ toString orders.length ++ " orders",
             orders := some orders, error := none, debugLog := debugLog }, st4)

theorem storeGet_scrapeCatch (now : String) (st : ScraperState) (sid m : String) :
    storeGet (scrapeCatch now st sid m).2.sessions sid = none :=
  storeGet_cleanupSession_self _ sid

theorem scrapeCatch_closes (now : String) (st : ScraperState) (sid m : String) (b : Nat)
    (h : Option.map Session.browser (storeGet st.sessions sid) = some b) :
    b ∈ (scrapeCatch now st sid m).2.closedBrowsers := by
  show b ∈ (cleanupSession (addDebug now st sid ("Scraping error: " ++ m)) sid).closedBrowsers
  apply cleanupSession_closes
  rw [storeGet_addDebug_browser]
  exact h

/-- C1: every return of `scrapeOrders` leaves the Store without an entry
for the id — on the success, zero-results and error paths the session is
removed and its browser handle closed, and on the unknown-id path there
never was an entry to begin with; additionally, the zero-matching-
elements scenario returns `success = false` with `orders = []` and the
session destroyed. -/
theorem scrape_session_destroyed (env : ScrapeEnv) (st : ScraperState) (sid : String) :
    storeGet (scrapeOrders env st sid).2.sessions sid = none ∧
    (∀ s, storeGet st.sessions sid = some s →
        s.browser ∈ (scrapeOrders env st sid).2.closedBrowsers) ∧
    ((storeGet st.sessions sid).isSome = true → env.elementTexts = [] →
      (jsIncludes env.currentUrl "my-account/orders" = true ∨ env.gotoOk = true) →
      (scrapeOrders env st sid).1.success = false ∧
      (scrapeOrders env st sid).1.orders = some []) := by
  cases hget : storeGet st.sessions sid with
  | none =>
      refine ⟨?_, ?_, ?_⟩
      · simp only [scrapeOrders, hget]
      · intro s hs
        cases hs
      · intro hsome
        simp at hsome
  | some s =>
      by_cases hc : jsIncludes env.currentUrl "my-account/orders" = false ∧ env.gotoOk = false
      · refine ⟨?_, ?_, ?_⟩
        · simp only [scrapeOrders, hget, if_pos hc]
          exact storeGet_scrapeCatch _ _ _ _
        · intro s' hs'
          obtain rfl := Option.some.inj hs'
          simp only [scrapeOrders, hget, if_pos hc]
          exact scrapeCatch_closes _ _ _ _ _ (by rw [hget]; rfl)
        · intro _ _ hor
          rcases hor with h1 | h1
          · cases h1.symm.trans hc.1
          · cases h1.symm.trans hc.2
      · refine ⟨?_, ?_, ?_⟩
        · simp only [scrapeOrders, hget, if_neg hc, apply_ite Prod.snd, ite_self]
          exact storeGet_storeDelete_self _ _
        · intro s' hs'
          obtain rfl := Option.some.inj hs'
          simp only [scrapeOrders, hget, if_neg hc, apply_ite Prod.snd, ite_self]
          exact List.mem_cons_self _ _
        · intro _ helem _
          simp only [scrapeOrders, hget, if_neg hc, helem, List.filterMap_nil,
            List.length_nil, eq_self_iff_true, if_true, ite_true]
          exact ⟨trivial, trivial⟩

/-- Witness for `scrape_session_destroyed`: a live session scraped on a
page already at the orders URL with zero matching elements. -/
theorem scrape_session_destroyed_witness :
    storeGet (scrapeOrders
        ⟨"t0", "https://www.swiggy.com/my-account/orders", true, "", "u", [], 0⟩
        ⟨[("s1", ⟨0, 1, "m", []⟩)], [], 2⟩ "s1").2.sessions "s1" = none ∧
    (0 : Nat) ∈ (scrapeOrders
        ⟨"t0", "https://www.swiggy.com/my-account/orders", true, "", "u", [], 0⟩
        ⟨[("s1", ⟨0, 1, "m", []⟩)], [], 2⟩ "s1").2.closedBrowsers ∧
    (scrapeOrders
        ⟨"t0", "https://www.swiggy.com/my-account/orders", true, "", "u", [], 0⟩
        ⟨[("s1", ⟨0, 1, "m", []⟩)], [], 2⟩ "s1").1.success = false ∧
    (scrapeOrders
        ⟨"t0", "https://www.swiggy.com/my-account/orders", true, "", "u", [], 0⟩
        ⟨[("s1", ⟨0, 1, "m", []⟩)], [], 2⟩ "s1").1.orders = some [] := by
  have h := scrape_session_destroyed
      ⟨"t0", "https://www.swiggy.com/my-account/orders", true, "", "u", [], 0⟩
      ⟨[("s1", ⟨0, 1, "m", []⟩)], [], 2⟩ "s1"
  exact ⟨h.1, h.2.1 ⟨0, 1, "m", []⟩ rfl, (h.2.2 rfl rfl (Or.inr rfl)).1,
    (h.2.2 rfl rfl (Or.inr rfl)).2⟩

theorem parseAmount_nonneg (cap : List Char) : 0 ≤ parseAmount cap := by
  unfold parseAmount
  dsimp only
  split
  · positivity
  · positivity

theorem extractOrder_amount_pos (off : Int) (text : String) (o : Order)
    (h : extractOrderFromText off text = some o) : 0 < o.amount := by
  rcases hd : dateMatchAux text.data with _ | r
  · simp only [extractOrderFromText, hd] at h
    cases h
  · obtain ⟨cap', day, month, year⟩ := r
    rcases hiso : jsToIsoDate off day month year with _ | iso
    · simp only [extractOrderFromText, hd, hiso] at h
      cases h
    · rcases ha : amountMatch text.data with _ | cap
      · simp only [extractOrderFromText, hd, hiso, ha, Option.map_none'] at h
        cases h
      · simp only [extractOrderFromText, hd, hiso, ha, Option.map_some'] at h
        by_cases hz : parseAmount cap ≠ 0
        · rw [if_pos hz] at h
          obtain rfl := Option.some.inj h
          exact lt_of_le_of_ne (parseAmount_nonneg cap) (Ne.symm hz)
        · rw [if_neg hz] at h
          cases h

/-- C9: every record emitted by `scrapeOrders` has a strictly positive
amount, because the push guard `if (amount && date)` tests the parsed
amount for truthiness — an element whose currency match parses to `0`
produces no record even when a well-formed date is present. -/
theorem scrape_orders_positive :
    (∀ env st sid l o, (scrapeOrders env st sid).1.orders = some l → o ∈ l →
        0 < o.amount) ∧
    (∀ (off : Int) (text : String) (cap : List Char),
        amountMatch text.data = some cap → parseAmount cap = 0 →
        extractOrderFromText off text = none) := by
  constructor
  · intro env st sid l o hl ho
    cases hget : storeGet st.sessions sid with
    | none =>
        rw [show (scrapeOrders env st sid).1.orders = none from by
          simp only [scrapeOrders, hget]] at hl
        cases hl
    | some s =>
        by_cases hc : jsIncludes env.currentUrl "my-account/orders" = false ∧
            env.gotoOk = false
        · rw [show (scrapeOrders env st sid).1.orders = some [] from by
            simp only [scrapeOrders, hget, if_pos hc]; rfl] at hl
          obtain rfl := Option.some.inj hl
          cases ho
        · have hred : (scrapeOrders env st sid).1.orders =
              if (env.elementTexts.filterMap (extractOrderFromText env.tzOffsetMin)).length
                  = 0 then some []
              else some (env.elementTexts.filterMap (extractOrderFromText env.tzOffsetMin)) := by
            simp only [scrapeOrders, hget, if_neg hc, apply_ite Prod.fst,
              apply_ite ScrapeResult.orders]
          rw [hred] at hl
          split at hl
          · obtain rfl := Option.some.inj hl
            cases ho
          · obtain rfl := Option.some.inj hl
            obtain ⟨text, _, hex⟩ := List.mem_filterMap.mp ho
            exact extractOrder_amount_pos _ _ _ hex
  · intro off text cap ha hz
    rcases hd : dateMatchAux text.data with _ | r
    · simp only [extractOrderFromText, hd]
    · obtain ⟨cap', day, month, year⟩ := r
      rcases hiso : jsToIsoDate off day month year with _ | iso
      · simp only [extractOrderFromText, hd, hiso]
      · simp only [extractOrderFromText, hd, hiso, ha, Option.map_some']
        rw [if_neg (by simp [hz])]

/-- Witness for `scrape_orders_positive`: "₹0" with a valid date emits
no record. -/
theorem scrape_orders_positive_witness :
    extractOrderFromText 0 "₹0 15 Mar 2024" = none :=
  scrape_orders_positive.2 0 "₹0 15 Mar 2024" ['0'] (by decide) (by decide)

/-- Counterexample to C3 as stated: "₹0 15 Mar 2024" contains a
well-formed currency-amount substring (the pattern matches, capturing
"0") and a well-formed date substring (extraction normalises it), yet no
candidate record is emitted, because the `amount && date` guard tests
truthiness and `0` is falsy. -/
theorem zero_amount_record_cex :
    amountMatch "₹0 15 Mar 2024".data = some ['0'] ∧
    extractDate 0 "₹0 15 Mar 2024" = some "2024-03-15" ∧
    extractOrderFromText 0 "₹0 15 Mar 2024" = none := by
  refine ⟨by decide, by decide, by decide⟩

theorem parseAmount_1234 : parseAmount "1,234.50".data = 2469 / 2 := by
  have h4 : (("1,234.50".data.filter (fun c => c != ',')).dropWhile Char.isDigit).head?
      = some '.' := by decide
  have h1 : digitsToNat (("1,234.50".data.filter (fun c => c != ',')).takeWhile Char.isDigit)
      = 1234 := by decide
  have h2 : digitsToNat (("1,234.50".data.filter (fun c => c != ',')).dropWhile Char.isDigit).tail
      = 50 := by decide
  have h3 : (("1,234.50".data.filter (fun c => c != ',')).dropWhile Char.isDigit).tail.length
      = 2 := by decide
  unfold parseAmount
  dsimp only
  rw [if_pos h4, h1, h2, h3]
  norm_num

/-- C3 (amended): for every element text whose amount pattern matches
with a capture parsing to a nonzero value and whose date pattern matches
with a date the normaliser accepts, extraction emits exactly one
candidate record carrying the comma-stripped parsed amount and the
normalised ISO date; if either pattern fails to match, no record is
emitted; and on "₹1,234.50" the captured amount parses to 1234.50.
(The claim as stated fails when the matched amount parses to 0: the
truthiness guard drops the record — see the counterexample.) -/
theorem extraction_record_amended :
    (∀ (off : Int) (text : String) (cap : List Char)
        (r : List Char × Nat × Nat × Nat) (iso : String),
        amountMatch text.data = some cap →
        dateMatchAux text.data = some r →
        jsToIsoDate off r.2.1 r.2.2.1 r.2.2.2 = some iso →
        parseAmount cap ≠ 0 →
        extractOrderFromText off text =
          some ⟨iso, parseAmount cap, restaurantOf text⟩) ∧
    (∀ (off : Int) (text : String), amountMatch text.data = none →
        extractOrderFromText off text = none) ∧
    (∀ (off : Int) (text : String), dateMatchAux text.data = none →
        extractOrderFromText off text = none) ∧
    (amountMatch "₹1,234.50".data = some "1,234.50".data ∧
      parseAmount "1,234.50".data = 2469 / 2) := by
  refine ⟨?_, ?_, ?_, by decide, parseAmount_1234⟩
  · intro off text cap r iso ha hd hiso hz
    obtain ⟨cap', day, month, year⟩ := r
    simp only [extractOrderFromText, ha, hd, hiso, Option.map_some']
    rw [if_pos hz]
  · intro off text ha
    rcases hd : dateMatchAux text.data with _ | r
    · simp only [extractOrderFromText, hd]
    · obtain ⟨cap', day, month, year⟩ := r
      rcases hiso : jsToIsoDate off day month year with _ | iso
      · simp only [extractOrderFromText, hd, hiso]
      · simp only [extractOrderFromText, hd, hiso, ha, Option.map_none']
  · intro off text hd
    simp only [extractOrderFromText, hd]

/-- Witness for `extraction_record_amended` at a concrete element text. -/
theorem extraction_record_amended_witness :
    extractOrderFromText 0 "₹1,234.50 on 15 Mar 2024" =
      some ⟨"2024-03-15", parseAmount "1,234.50".data,
        restaurantOf "₹1,234.50 on 15 Mar 2024"⟩ :=
  extraction_record_amended.1 0 "₹1,234.50 on 15 Mar 2024" "1,234.50".data
    ("15 Mar 2024".data, 15, 3, 2024) "2024-03-15"
    (by decide) (by decide) (by decide) (by rw [parseAmount_1234]; norm_num)

/-- Counterexample to C4 as stated: on a host running at UTC+05:30 (IST,
offset +330 minutes — the natural deployment for this scraper), the date
extraction pipeline turns "15 Mar 2024" into "2024-03-14", not
"2024-03-15": V8 parses the matched string as local midnight and
`toISOString` renders it in UTC, one calendar day earlier. -/
theorem date_tz_cex :
    extractDate 330 "15 Mar 2024" = some "2024-03-14" ∧
      some "2024-03-14" ≠ some "2024-03-15" := ⟨by decide, by decide⟩

/-- C4 (amended): date extraction normalises the first matched
"day month-name year" to the ISO date of the UTC instant corresponding
to local midnight of that day; this is the same calendar day exactly
when the host's UTC offset is non-positive (at or west of Greenwich),
and in particular "15 Mar 2024" yields "2024-03-15" under any such
offset; under a positive offset the previous day is produced (see the
counterexample). -/
theorem date_extraction_amended :
    (∀ off : Int, -1440 < off → off ≤ 0 →
        ∀ day month year : Nat, 1 ≤ day → day ≤ 31 → 100 ≤ year →
        jsToIsoDate off day month year =
          some (formatIsoDate (civilFromDays (daysFromCivil (year : Int) month day)))) ∧
    (∀ off : Int, -1440 < off → off ≤ 0 →
        extractDate off "15 Mar 2024" = some "2024-03-15") := by
  have hgen : ∀ off : Int, -1440 < off → off ≤ 0 →
      ∀ day month year : Nat, 1 ≤ day → day ≤ 31 → 100 ≤ year →
      jsToIsoDate off day month year =
        some (formatIsoDate (civilFromDays (daysFromCivil (year : Int) month day))) := by
    intro off h1 h2 day month year hd1 hd2 hy
    unfold jsToIsoDate
    rw [if_pos ⟨hd1, hd2, hy⟩]
    show some (formatIsoDate (civilFromDays
        ((daysFromCivil (year : Int) month day * 1440 - off) / 1440))) = _
    have heq : (daysFromCivil (year : Int) month day * 1440 - off) / 1440 =
        daysFromCivil (year : Int) month day := by omega
    rw [heq]
  refine ⟨hgen, ?_⟩
  intro off h1 h2
  have hm : dateMatchAux ("15 Mar 2024" : String).data =
      some (("15 Mar 2024" : String).data, 15, 3, 2024) := by decide
  show extractDate off "15 Mar 2024" = some "2024-03-15"
  unfold extractDate
  rw [hm]
  show jsToIsoDate off 15 3 2024 = some "2024-03-15"
  rw [hgen off h1 h2 15 3 2024 (by norm_num) (by norm_num) (by norm_num)]
  decide

/-- Witness for `date_extraction_amended` at offset 0 (UTC host). -/
theorem date_extraction_amended_witness :
    extractDate 0 "15 Mar 2024" = some "2024-03-15" :=
  date_extraction_amended.2 0 (by norm_num) (by norm_num)

end DeliveryExpense
